import Mathlib

/-!
Verification of the financial & stock consistency core of a small-business
back-office backend (invoices, payments, inventory, subscriptions).

The JavaScript/Mongoose source is shallowly embedded: each Mongoose document
becomes a structure over exact rationals (money, quantities) and integer
millisecond timestamps; each instance method becomes a pure function from the
document state (plus the current time and any generated identifiers) to the
new state, with thrown errors modelled by `Except`/`Option` results; every
`save()` call applies the schema's pre-save hook, exactly as Mongoose does.
-/

namespace BackOffice

/-- Shallow embedding of the Mongoose `Invoice` document: the fields the
financial consistency rules read and write. Money fields are exact rationals,
dates are integer milliseconds since the epoch. -/
structure Invoice where
  subtotal : ℚ
  taxRate : ℚ
  taxAmount : ℚ
  discount : ℚ
  discountType : String
  shippingFee : ℚ
  total : ℚ
  amountPaid : ℚ
  amountDue : ℚ
  status : String
  paymentStatus : String
  dueDate : Int
  paidDate : Option Int
  deriving Repr, DecidableEq

/-- The `isOverdue` virtual of the invoice schema: `false` for paid or
cancelled invoices, otherwise whether the current time is past `dueDate`. -/
def invoiceIsOverdue (now : Int) (inv : Invoice) : Bool :=
  if inv.status = "paid" || inv.status = "cancelled" then false
  else decide (now > inv.dueDate)

/-- First section of the invoice pre-save hook: recompute `taxAmount`,
`total` (applying the percentage/fixed discount when `discount > 0`) and
`amountDue`. -/
def invoiceComputeTotals (inv : Invoice) : Invoice :=
  let taxAmount := inv.subtotal * (inv.taxRate / 100)
  let base := inv.subtotal + taxAmount + inv.shippingFee
  let discounted :=
    if inv.discount > 0 then
      if inv.discountType = "percentage" then
        base - inv.subtotal * inv.discount / 100
      else
        base - inv.discount
    else base
  let total := max 0 discounted
  { inv with
    taxAmount := taxAmount
    total := total
    amountDue := max 0 (total - inv.amountPaid) }

/-- Second section of the invoice pre-save hook: re-derive
`paymentStatus`/`status` from `amountPaid` vs `total`, stamping `paidDate`
the first time the invoice is paid. -/
def invoiceDeriveStatus (now : Int) (inv : Invoice) : Invoice :=
  if inv.amountPaid = 0 then
    { inv with paymentStatus := "unpaid" }
  else if inv.amountPaid ≥ inv.total then
    { inv with
      paymentStatus := "paid"
      status := "paid"
      paidDate := if inv.paidDate = none then some now else inv.paidDate }
  else
    { inv with
      paymentStatus := "partial"
      status := "partial" }

/-- Third section of the invoice pre-save hook: force `overdue` when the
invoice is past due and neither paid nor cancelled. -/
def invoiceApplyOverdue (now : Int) (inv : Invoice) : Invoice :=
  if invoiceIsOverdue now inv ∧ inv.status ≠ "paid" ∧ inv.status ≠ "cancelled" then
    { inv with status := "overdue" }
  else inv

/-- The invoice schema's pre-save hook, the three sections in source order.
Runs before every persisted mutation. -/
def invoicePreSave (now : Int) (inv : Invoice) : Invoice :=
  invoiceApplyOverdue now (invoiceDeriveStatus now (invoiceComputeTotals inv))

/-- Embedding of `invoiceSchema.methods.addPayment(amount)`: increments `amountPaid`,
re-derives status fields (stamping `paidDate` unconditionally in the paid
branch), recomputes `amountDue`, then saves (running the pre-save hook). -/
def addPayment (now : Int) (amount : ℚ) (inv : Invoice) : Invoice :=
  let inv1 : Invoice := { inv with amountPaid := inv.amountPaid + amount }
  let inv2 : Invoice :=
    if inv1.amountPaid ≥ inv1.total then
      { inv1 with
        status := "paid"
        paymentStatus := "paid"
        paidDate := some now }
    else
      { inv1 with
        status := "partial"
        paymentStatus := "partial" }
  let inv3 : Invoice := { inv2 with amountDue := max 0 (inv2.total - inv2.amountPaid) }
  invoicePreSave now inv3

/-- The discount amount as the spec phrases it: the raw `discount` for the
`fixed` type, `subtotal × discount/100` for `percentage`. -/
def discountAmount (inv : Invoice) : ℚ :=
  if inv.discountType = "percentage" then inv.subtotal * inv.discount / 100
  else inv.discount

/-- One entry of an inventory item's `stockHistory`: a signed movement with
before/after snapshot, stamped with the time the mutation ran. -/
structure StockMovement where
  date : Int
  movementType : String
  quantity : ℚ
  previousQuantity : ℚ
  newQuantity : ℚ
  reference : String
  notes : String
  deriving Repr, DecidableEq

/-- Shallow embedding of the Mongoose `Inventory` document: the fields the
stock-ledger rules read and write (`stats.*` flattened). -/
structure InventoryItem where
  quantity : ℚ
  trackInventory : Bool
  status : String
  stockHistory : List StockMovement
  totalSold : ℚ
  lastSoldDate : Option Int
  lastRestockedDate : Option Int
  lowStockAlert : Bool
  reorderPoint : ℚ
  deriving Repr, DecidableEq

/-- The inventory schema's pre-save hook: derives `out_of_stock`/`active`
from `quantity` for tracked items, then truncates `stockHistory` to its most
recent 10 entries (`slice(-10)`). -/
def inventoryPreSave (item : InventoryItem) : InventoryItem :=
  let item1 :=
    if item.trackInventory then
      if item.quantity = 0 then { item with status := "out_of_stock" }
      else if item.status = "out_of_stock" ∧ item.quantity > 0 then
        { item with status := "active" }
      else item
    else item
  if item1.stockHistory.length > 10 then
    { item1 with
      stockHistory := item1.stockHistory.drop (item1.stockHistory.length - 10) }
  else item1

/-- Embedding of `inventorySchema.methods.addStock(quantity, type, reference, notes)`:
increments `quantity`, appends a movement with before/after snapshot, stamps
`lastRestockedDate` for purchases, then saves (running the pre-save hook). -/
def addStock (now : Int) (qty : ℚ) (mType ref notes : String)
    (item : InventoryItem) : InventoryItem :=
  let previousQuantity := item.quantity
  let item1 : InventoryItem :=
    { item with
      quantity := item.quantity + qty
      stockHistory := item.stockHistory ++
        [⟨now, mType, qty, previousQuantity, item.quantity + qty, ref, notes⟩] }
  let item2 :=
    if mType = "purchase" then { item1 with lastRestockedDate := some now }
    else item1
  inventoryPreSave item2

/-- Embedding of `inventorySchema.methods.reduceStock(quantity, type, reference, notes)`.
The method runs on a mutable document and may throw: the result pairs the
document's state after the call with the thrown error message, if any. The
insufficient-stock guard throws before any field is touched, so on that path
the state is returned unchanged; on success the decrement, the appended
negative movement, the sale statistics and the save (pre-save hook) all
apply. -/
def reduceStock (now : Int) (qty : ℚ) (mType ref notes : String)
    (item : InventoryItem) : InventoryItem × Option String :=
  if qty > item.quantity then
    (item, some "Insufficient stock")
  else
    let previousQuantity := item.quantity
    let item1 : InventoryItem :=
      { item with
        quantity := item.quantity - qty
        stockHistory := item.stockHistory ++
          [⟨now, mType, -qty, previousQuantity, item.quantity - qty, ref, notes⟩] }
    let item2 :=
      if mType = "sale" then
        { item1 with
          totalSold := item1.totalSold + qty
          lastSoldDate := some now }
      else item1
    (inventoryPreSave item2, none)

/-- Embedding of `inventorySchema.methods.adjustStock(newQuantity, notes)`: sets the
quantity directly, recording the signed delta as an `adjustment` movement,
then saves (running the pre-save hook). -/
def adjustStock (now : Int) (newQuantity : ℚ) (notes : String)
    (item : InventoryItem) : InventoryItem :=
  let previousQuantity := item.quantity
  let difference := newQuantity - item.quantity
  let item1 : InventoryItem :=
    { item with
      quantity := newQuantity
      stockHistory := item.stockHistory ++
        [⟨now, "adjustment", difference, previousQuantity, newQuantity, "", notes⟩] }
  inventoryPreSave item1

/-- Chronological order of a movement list: dates are non-decreasing, so the
most recent entry is last. -/
def chronological (l : List StockMovement) : Prop :=
  l.Pairwise (fun a b => a.date ≤ b.date)

instance (l : List StockMovement) : Decidable (chronological l) :=
  inferInstanceAs (Decidable (l.Pairwise _))

/-- Shallow embedding of the Mongoose `Payment` document: the fields the
reconciliation rules read and write (`fees.total` flattened, the `refund`
sub-document split into optional fields). -/
structure Payment where
  amount : ℚ
  method : String
  status : String
  transactionRef : String
  feesTotal : ℚ
  netAmount : Option ℚ
  completedAt : Option Int
  failedAt : Option Int
  refundedAt : Option Int
  refundAmount : Option ℚ
  refundReason : Option String
  refundDate : Option Int
  deriving Repr, DecidableEq

/-- The client financial aggregates touched by payment completion. -/
structure Client where
  totalPaid : ℚ
  lastPaymentDate : Option Int
  deriving Repr, DecidableEq

/-- The payment schema's pre-save hook: recomputes `netAmount` (fees are
subtracted only when `fees.total` is truthy, i.e. non-zero), and stamps
`completedAt`/`failedAt` once when the corresponding status is reached. -/
def paymentPreSave (now : Int) (p : Payment) : Payment :=
  let p1 :=
    if p.feesTotal ≠ 0 then { p with netAmount := some (p.amount - p.feesTotal) }
    else { p with netAmount := some p.amount }
  let p2 :=
    if p1.status = "completed" ∧ p1.completedAt = none then
      { p1 with completedAt := some now }
    else p1
  if p2.status = "failed" ∧ p2.failedAt = none then
    { p2 with failedAt := some now }
  else p2

/-- Embedding of `paymentSchema.methods.markAsCompleted()`: sets the payment to
`completed`, applies `addPayment(amount)` to the linked invoice (when one is
linked and found) and the running-balance update to the linked client, then
saves the payment (running its pre-save hook). -/
def markAsCompleted (now : Int) (p : Payment) (inv : Option Invoice)
    (cl : Option Client) : Payment × Option Invoice × Option Client :=
  let p1 : Payment := { p with status := "completed", completedAt := some now }
  let inv' := inv.map (addPayment now p.amount)
  let cl' := cl.map (fun c =>
    { c with
      totalPaid := c.totalPaid + p.amount
      lastPaymentDate := some now })
  (paymentPreSave now p1, inv', cl')

/-- The invoice side of `processRefund`: reverse `amountPaid`/`amountDue`
by the refunded amount, re-derive the status fields (`unpaid`/`sent` at
zero, `partial` below `total`, untouched otherwise), then save the invoice
(running its pre-save hook). -/
def processRefundInvoice (now : Int) (amount : ℚ) (i : Invoice) : Invoice :=
  let i1 : Invoice :=
    { i with
      amountPaid := i.amountPaid - amount
      amountDue := i.amountDue + amount }
  let i2 : Invoice :=
    if i1.amountPaid = 0 then
      { i1 with paymentStatus := "unpaid", status := "sent" }
    else if i1.amountPaid < i1.total then
      { i1 with paymentStatus := "partial", status := "partial" }
    else i1
  invoicePreSave now i2

/-- Embedding of `paymentSchema.methods.processRefund(amount, reason, userId)`. Both
guards throw before any field is touched; on success the payment becomes
`refunded` with refund metadata, and the linked invoice (when found) is
updated by `processRefundInvoice`, then the payment is saved (running its
pre-save hook). The thrown error is the `Except.error` message. -/
def processRefund (now : Int) (amount : ℚ) (reason : String) (p : Payment)
    (inv : Option Invoice) : Except String (Payment × Option Invoice) :=
  if p.status ≠ "completed" then
    .error "Can only refund completed payments"
  else if amount > p.amount then
    .error "Refund amount cannot exceed payment amount"
  else
    let p1 : Payment :=
      { p with
        status := "refunded"
        refundedAt := some now
        refundAmount := some amount
        refundReason := some reason
        refundDate := some now }
    .ok (paymentPreSave now p1, inv.map (processRefundInvoice now amount))

/-- Embedding of `createPayment` (payment controller): when an invoice is linked, rejects
amounts exceeding the invoice's `amountDue` before anything is persisted;
otherwise creates a `pending` payment carrying the generated transaction
reference (persisting runs the payment pre-save hook), and auto-completes it
for the `cash` method. -/
def createPayment (now : Int) (txRef : String) (inv : Option Invoice)
    (cl : Option Client) (amount : ℚ) (method : String) :
    Except String (Payment × Option Invoice × Option Client) :=
  let overpays : Bool :=
    match inv with
    | some i => decide (amount > i.amountDue)
    | none => false
  if overpays then
    .error "Payment amount exceeds invoice balance"
  else
    let p0 : Payment :=
      { amount := amount
        method := method
        status := "pending"
        transactionRef := txRef
        feesTotal := 0
        netAmount := none
        completedAt := none
        failedAt := none
        refundedAt := none
        refundAmount := none
        refundReason := none
        refundDate := none }
    let p1 := paymentPreSave now p0
    if method = "cash" then .ok (markAsCompleted now p1 inv cl)
    else .ok (p1, inv, cl)

/-- The gateway's authoritative verification outcome for a transaction, as
returned by `verify(transactionId)`: a status string and the amount actually
charged. -/
structure VerifyData where
  status : String
  amount : ℚ
  deriving Repr, DecidableEq

/-- Embedding of `verifyFlutterwavePayment` (payment controller): completes the pending
payment (with its invoice/client side effects) when the gateway result has
`status == "successful"` and an amount at least the expected amount;
otherwise marks the payment `failed` and saves it, touching neither the
invoice nor the client. The boolean is the HTTP-level success flag. -/
def verifyFlutterwavePayment (now : Int) (d : VerifyData) (p : Payment)
    (inv : Option Invoice) (cl : Option Client) :
    (Payment × Option Invoice × Option Client) × Bool :=
  if d.status = "successful" ∧ d.amount ≥ p.amount then
    let p1 : Payment := { p with status := "completed" }
    (markAsCompleted now p1 inv cl, true)
  else
    ((paymentPreSave now { p with status := "failed" }, inv, cl), false)

/-- One entry of a subscription's `renewalHistory`. -/
structure RenewalEntry where
  renewalDate : Int
  amount : ℚ
  payment : String
  paymentReference : String
  deriving Repr, DecidableEq

/-- Shallow embedding of the Mongoose `Subscription` document: the fields the
lifecycle rules read and write. `gracePeriodDays` is a day count; all date
fields are millisecond timestamps. -/
structure Subscription where
  planType : String
  amount : ℚ
  startDate : Int
  endDate : Int
  nextBillingDate : Option Int
  status : String
  autoRenew : Bool
  cancelledAt : Option Int
  cancellationReason : Option String
  paymentId : String
  paymentTransactionId : Option String
  paymentVerifiedAt : Option Int
  gracePeriodDays : Int
  renewalHistory : List RenewalEntry
  deriving Repr, DecidableEq

/-- One day in milliseconds, the unit the source's date arithmetic uses. -/
def dayMs : Int := 24 * 60 * 60 * 1000

/-- The subscription schema's pre-save hook: defaults `nextBillingDate` to
`endDate` for active auto-renewing subscriptions, and forces `expired` on an
active subscription whose grace period (`endDate + gracePeriodDays`) has
lapsed. -/
def subscriptionPreSave (now : Int) (s : Subscription) : Subscription :=
  let s1 :=
    if s.status = "active" ∧ s.autoRenew ∧ s.nextBillingDate = none then
      { s with nextBillingDate := some s.endDate }
    else s
  if s1.status = "active" ∧ now > s1.endDate ∧
      now > s1.endDate + s1.gracePeriodDays * dayMs then
    { s1 with status := "expired" }
  else s1

/-- Embedding of `subscriptionSchema.methods.activate(paymentId, transactionId)`: starts
the paid period at `now`, with `endDate = now + 365d` (yearly) or `+ 30d`
(otherwise), then saves (running the pre-save hook). -/
def subscriptionActivate (now : Int) (paymentId transactionId : String)
    (s : Subscription) : Subscription :=
  let period := if s.planType = "yearly" then 365 * dayMs else 30 * dayMs
  subscriptionPreSave now
    { s with
      status := "active"
      paymentId := paymentId
      paymentTransactionId := some transactionId
      paymentVerifiedAt := some now
      startDate := now
      endDate := now + period
      nextBillingDate := some (now + period) }

/-- Embedding of `subscriptionSchema.methods.renew(paymentId, transactionId)`: legal only
from `active` or `expired`; appends a renewal-history entry, extends the
period from `max(currentEndDate, now)`, re-activates, clears cancellation
metadata, then saves (running the pre-save hook). The thrown error is the
`Except.error` message. -/
def subscriptionRenew (now : Int) (paymentId transactionId : String)
    (s : Subscription) : Except String Subscription :=
  if s.status ≠ "active" ∧ s.status ≠ "expired" then
    .error "Can only renew active or expired subscriptions"
  else
    let s1 : Subscription :=
      { s with
        renewalHistory := s.renewalHistory ++
          [⟨now, s.amount, paymentId, transactionId⟩] }
    let baseDate := if s1.endDate > now then s1.endDate else now
    let period := if s1.planType = "yearly" then 365 * dayMs else 30 * dayMs
    let s2 : Subscription :=
      { s1 with
        endDate := baseDate + period
        status := "active"
        paymentId := paymentId
        paymentTransactionId := some transactionId
        paymentVerifiedAt := some now
        nextBillingDate := some (baseDate + period)
        cancelledAt := none
        cancellationReason := none }
    .ok (subscriptionPreSave now s2)

/-! ## Theorems -/

/-- Projections of `invoicePreSave` that the status branches never touch:
the input fields carried through unchanged, and the recomputed money
fields. -/
theorem invoicePreSave_money (now : Int) (inv : Invoice) :
    (invoicePreSave now inv).subtotal = inv.subtotal ∧
    (invoicePreSave now inv).taxRate = inv.taxRate ∧
    (invoicePreSave now inv).discount = inv.discount ∧
    (invoicePreSave now inv).discountType = inv.discountType ∧
    (invoicePreSave now inv).shippingFee = inv.shippingFee ∧
    (invoicePreSave now inv).amountPaid = inv.amountPaid ∧
    (invoicePreSave now inv).taxAmount = inv.subtotal * (inv.taxRate / 100) ∧
    (invoicePreSave now inv).total =
      max 0 (if inv.discount > 0 then
          if inv.discountType = "percentage" then
            inv.subtotal + inv.subtotal * (inv.taxRate / 100) + inv.shippingFee -
              inv.subtotal * inv.discount / 100
          else
            inv.subtotal + inv.subtotal * (inv.taxRate / 100) + inv.shippingFee -
              inv.discount
        else inv.subtotal + inv.subtotal * (inv.taxRate / 100) + inv.shippingFee) ∧
    (invoicePreSave now inv).amountDue =
      max 0 ((invoicePreSave now inv).total - inv.amountPaid) := by
  unfold invoicePreSave invoiceApplyOverdue invoiceDeriveStatus invoiceComputeTotals
  dsimp only
  split_ifs <;> simp_all

/-- The status-derivation step keeps every money field and the dates. -/
theorem invoiceDeriveStatus_keeps (now : Int) (inv : Invoice) :
    (invoiceDeriveStatus now inv).subtotal = inv.subtotal ∧
    (invoiceDeriveStatus now inv).taxAmount = inv.taxAmount ∧
    (invoiceDeriveStatus now inv).shippingFee = inv.shippingFee ∧
    (invoiceDeriveStatus now inv).total = inv.total ∧
    (invoiceDeriveStatus now inv).amountPaid = inv.amountPaid ∧
    (invoiceDeriveStatus now inv).amountDue = inv.amountDue ∧
    (invoiceDeriveStatus now inv).dueDate = inv.dueDate := by
  unfold invoiceDeriveStatus
  split_ifs <;> simp

/-- The overdue step keeps everything except `status`. -/
theorem invoiceApplyOverdue_keeps (now : Int) (inv : Invoice) :
    (invoiceApplyOverdue now inv).subtotal = inv.subtotal ∧
    (invoiceApplyOverdue now inv).taxAmount = inv.taxAmount ∧
    (invoiceApplyOverdue now inv).shippingFee = inv.shippingFee ∧
    (invoiceApplyOverdue now inv).total = inv.total ∧
    (invoiceApplyOverdue now inv).amountPaid = inv.amountPaid ∧
    (invoiceApplyOverdue now inv).amountDue = inv.amountDue ∧
    (invoiceApplyOverdue now inv).paymentStatus = inv.paymentStatus ∧
    (invoiceApplyOverdue now inv).paidDate = inv.paidDate := by
  unfold invoiceApplyOverdue
  split_ifs <;> simp

/-- A `paidDate` already present survives the pre-save hook unchanged. -/
theorem invoicePreSave_paidDate_some (now : Int) (inv : Invoice) (d : Int)
    (h : inv.paidDate = some d) : (invoicePreSave now inv).paidDate = some d := by
  unfold invoicePreSave invoiceApplyOverdue invoiceDeriveStatus invoiceComputeTotals
  dsimp only
  split_ifs <;> simp_all

/-- C1: at every saved state of an invoice (whose persisted `discount` is
non-negative and whose `discountType` is one of the schema's enum values),
`amountDue = max(0, total − amountPaid)`,
`total = max(0, subtotal + taxAmount + shippingFee − discountAmount)` with
`discountAmount` the fixed `discount` or `subtotal × discount/100` by type,
and `taxAmount = subtotal × taxRate/100`; the pre-save hook establishing
this runs before every persisted mutation. -/
theorem invoice_saved_money_invariant (now : Int) (inv : Invoice)
    (hdisc : 0 ≤ inv.discount)
    (hdt : inv.discountType = "percentage" ∨ inv.discountType = "fixed") :
    (invoicePreSave now inv).amountDue =
      max 0 ((invoicePreSave now inv).total - (invoicePreSave now inv).amountPaid) ∧
    (invoicePreSave now inv).total =
      max 0 ((invoicePreSave now inv).subtotal + (invoicePreSave now inv).taxAmount +
        (invoicePreSave now inv).shippingFee - discountAmount (invoicePreSave now inv)) ∧
    (invoicePreSave now inv).taxAmount =
      (invoicePreSave now inv).subtotal * ((invoicePreSave now inv).taxRate / 100) := by
  obtain ⟨hs, ht, hd, hdty, hsf, hap, hta, hto, hdu⟩ := invoicePreSave_money now inv
  refine ⟨by rw [hdu, hap], ?_, by rw [hta, hs, ht]⟩
  rw [hto, hs, hta, hsf]
  unfold discountAmount
  rw [hdty, hd, hs]
  by_cases hpos : inv.discount > 0
  · rw [if_pos hpos]
    rcases hdt with h | h <;> rw [h] <;> simp
  · rw [if_neg hpos]
    have h0 : inv.discount = 0 := le_antisymm (not_lt.mp hpos) hdisc
    rcases hdt with h | h <;> rw [h, h0] <;> simp

/-- Concrete invoice for the C1 witness: end-to-end scenario A's invoice
(subtotal 10000, tax rate 7.5, no discount, no shipping). -/
def invScenarioA : Invoice :=
  ⟨10000, 15/2, 0, 0, "percentage", 0, 0, 0, 0, "draft", "unpaid", 1000000, none⟩

/-- Witness for C1 at scenario A's invoice. -/
theorem invoice_saved_money_invariant_witness :
    (0 : ℚ) ≤ invScenarioA.discount ∧
    (invoicePreSave 0 invScenarioA).amountDue =
      max 0 ((invoicePreSave 0 invScenarioA).total -
        (invoicePreSave 0 invScenarioA).amountPaid) ∧
    (invoicePreSave 0 invScenarioA).total =
      max 0 ((invoicePreSave 0 invScenarioA).subtotal +
        (invoicePreSave 0 invScenarioA).taxAmount +
        (invoicePreSave 0 invScenarioA).shippingFee -
        discountAmount (invoicePreSave 0 invScenarioA)) :=
  ⟨by norm_num [invScenarioA],
    (invoice_saved_money_invariant 0 invScenarioA (by norm_num [invScenarioA])
      (Or.inl rfl)).1,
    (invoice_saved_money_invariant 0 invScenarioA (by norm_num [invScenarioA])
      (Or.inl rfl)).2.1⟩

/-- The status-derivation step yields `paid` exactly for a non-zero
`amountPaid` at least the (already recomputed) `total`. -/
theorem invoiceDeriveStatus_paid_iff (now : Int) (inv : Invoice) :
    (invoiceDeriveStatus now inv).paymentStatus = "paid" ↔
      (inv.amountPaid ≠ 0 ∧ inv.amountPaid ≥ inv.total) := by
  unfold invoiceDeriveStatus
  split_ifs <;> simp_all

/-- C4 (amended): at every saved state, `paymentStatus == "paid"` iff
`amountPaid` is non-zero and at least `total`; an invoice with
`total = 0` and `amountPaid = 0` stays `unpaid`, not `paid`. -/
theorem invoice_paid_iff_nonzero_and_covering (now : Int) (inv : Invoice) :
    (invoicePreSave now inv).paymentStatus = "paid" ↔
      ((invoicePreSave now inv).amountPaid ≠ 0 ∧
        (invoicePreSave now inv).amountPaid ≥ (invoicePreSave now inv).total) := by
  have k := invoiceApplyOverdue_keeps now (invoiceDeriveStatus now (invoiceComputeTotals inv))
  have kd := invoiceDeriveStatus_keeps now (invoiceComputeTotals inv)
  unfold invoicePreSave
  rw [k.2.2.2.2.2.2.1, k.2.2.2.1, k.2.2.2.2.1, kd.2.2.2.1, kd.2.2.2.2.1]
  exact invoiceDeriveStatus_paid_iff now _

/-- Concrete counterexample invoice for C4: everything zero, so
`total = 0 = amountPaid`. -/
def invZeroTotal : Invoice :=
  ⟨0, 0, 0, 0, "percentage", 0, 0, 0, 0, "draft", "unpaid", 100, none⟩

/-- C4 as frozen is false: on a saved invoice with `total = 0` and
`amountPaid = 0`, `amountPaid ≥ total` holds yet `paymentStatus` is
`"unpaid"`, because the hook checks `amountPaid == 0` first. -/
theorem invoice_paid_iff_counterexample :
    (invoicePreSave 0 invZeroTotal).amountPaid ≥ (invoicePreSave 0 invZeroTotal).total ∧
    (invoicePreSave 0 invZeroTotal).paymentStatus ≠ "paid" := by
  norm_num [invoicePreSave, invoiceComputeTotals, invoiceDeriveStatus,
    invoiceApplyOverdue, invoiceIsOverdue, invZeroTotal]
  decide

/-- C9 (amended): a re-save of an invoice preserves an existing `paidDate`
(the hook only stamps it when absent), but each `addPayment` call whose
result keeps `amountPaid ≥ total` stamps `paidDate` with the current time
unconditionally, overwriting any earlier value. -/
theorem paidDate_presave_stable_addPayment_restamps
    (inv invB : Invoice) (now nowB : Int) (d : Int) (a : ℚ)
    (h1 : inv.paidDate = some d)
    (h2 : invB.amountPaid + a ≥ invB.total) :
    (invoicePreSave now inv).paidDate = some d ∧
    (addPayment nowB a invB).paidDate = some nowB := by
  constructor
  · exact invoicePreSave_paidDate_some now inv d h1
  · unfold addPayment
    dsimp only
    split_ifs
    exact invoicePreSave_paidDate_some nowB _ nowB rfl

/-- Concrete invoice for C9: fully paid, `paidDate` stamped at time 1000. -/
def invPaidEarlier : Invoice :=
  ⟨100, 0, 0, 0, "percentage", 0, 100, 100, 0, "paid", "paid", 1000000, some 1000⟩

/-- C9 as frozen is false: a further `addPayment` on an already-paid invoice
keeps it paid but replaces the stored `paidDate` (1000) with the current
time (2000), because `addPayment` stamps it without the absence guard. -/
theorem paidDate_addPayment_counterexample :
    invPaidEarlier.paidDate = some 1000 ∧
    (addPayment 2000 5 invPaidEarlier).paymentStatus = "paid" ∧
    (addPayment 2000 5 invPaidEarlier).paidDate = some 2000 := by
  refine ⟨rfl, ?_, ?_⟩ <;>
    norm_num [addPayment, invoicePreSave, invoiceComputeTotals,
      invoiceDeriveStatus, invoiceApplyOverdue, invoiceIsOverdue,
      invPaidEarlier, max_def]

/-- Witness for the amended C9 at concrete inputs. -/
theorem paidDate_stability_witness :
    invPaidEarlier.paidDate = some 1000 ∧
    invPaidEarlier.amountPaid + 5 ≥ invPaidEarlier.total ∧
    (invoicePreSave 3000 invPaidEarlier).paidDate = some 1000 ∧
    (addPayment 2000 5 invPaidEarlier).paidDate = some 2000 := by
  have h := paidDate_presave_stable_addPayment_restamps invPaidEarlier invPaidEarlier
    3000 2000 1000 5 rfl (by norm_num [invPaidEarlier])
  exact ⟨rfl, by norm_num [invPaidEarlier], h.1, h.2⟩

/-- The inventory pre-save hook leaves `quantity` and the sales stats
untouched. -/
theorem inventoryPreSave_keeps (it : InventoryItem) :
    (inventoryPreSave it).quantity = it.quantity ∧
    (inventoryPreSave it).totalSold = it.totalSold := by
  unfold inventoryPreSave
  dsimp only
  split_ifs <;> simp

/-- The inventory pre-save hook's effect on the movement history: the most
recent 10 entries when there are more than 10, everything otherwise. -/
theorem inventoryPreSave_history (it : InventoryItem) :
    (inventoryPreSave it).stockHistory =
      if it.stockHistory.length > 10 then
        it.stockHistory.drop (it.stockHistory.length - 10)
      else it.stockHistory := by
  unfold inventoryPreSave
  dsimp only
  split_ifs <;> simp_all

/-- C2: reducing stock by more than the current quantity always throws the
insufficient-stock error before touching anything: the document comes back
with `quantity`, `stockHistory` and the stats exactly as they were. -/
theorem reduceStock_insufficient_rejected (now : Int) (q : ℚ)
    (mType ref notes : String) (item : InventoryItem)
    (h : q > item.quantity) :
    reduceStock now q mType ref notes item = (item, some "Insufficient stock") := by
  unfold reduceStock
  rw [if_pos h]

/-- Concrete inventory item for scenario B: quantity 5, empty history. -/
def itemFive : InventoryItem := ⟨5, true, "active", [], 0, none, none, true, 10⟩

/-- Witness for C2 at scenario B: `reduceStock(6, sale)` on quantity 5 is
rejected and the item is unchanged. -/
theorem reduceStock_insufficient_rejected_witness :
    (6 : ℚ) > itemFive.quantity ∧
    reduceStock 0 6 "sale" "" "" itemFive = (itemFive, some "Insufficient stock") :=
  ⟨by norm_num [itemFive],
    reduceStock_insufficient_rejected 0 6 "sale" "" "" itemFive
      (by norm_num [itemFive])⟩

/-- C10: the reduce-stock guard only bounds the request from above: any
`q ≤ quantity` — zero and negative values included — succeeds, sets
`quantity` to `quantity − q` (a negative `q` increases stock), and appends a
movement whose signed quantity is `−q`. -/
theorem reduceStock_accepts_nonpositive (now : Int) (q : ℚ)
    (mType ref notes : String) (item : InventoryItem)
    (h : q ≤ item.quantity) :
    (reduceStock now q mType ref notes item).2 = none ∧
    (reduceStock now q mType ref notes item).1.quantity = item.quantity - q ∧
    ∃ dropped, (reduceStock now q mType ref notes item).1.stockHistory =
      dropped ++ [⟨now, mType, -q, item.quantity, item.quantity - q, ref, notes⟩] := by
  unfold reduceStock
  rw [if_neg (not_lt.mpr h)]
  dsimp only
  set m : StockMovement :=
    ⟨now, mType, -q, item.quantity, item.quantity - q, ref, notes⟩ with hm
  have core : ∀ it : InventoryItem,
      it.quantity = item.quantity - q →
      it.stockHistory = item.stockHistory ++ [m] →
      (inventoryPreSave it).quantity = item.quantity - q ∧
      ∃ dropped, (inventoryPreSave it).stockHistory = dropped ++ [m] := by
    intro it hq hh
    refine ⟨(inventoryPreSave_keeps it).1.trans hq, ?_⟩
    rw [inventoryPreSave_history it, hh]
    by_cases hlen : (item.stockHistory ++ [m]).length > 10
    · rw [if_pos hlen]
      have hk : (item.stockHistory ++ [m]).length - 10 ≤ item.stockHistory.length := by
        simp only [List.length_append, List.length_singleton] at hlen ⊢
        omega
      exact ⟨_, List.drop_append_of_le_length hk⟩
    · rw [if_neg hlen]
      exact ⟨item.stockHistory, rfl⟩
  refine ⟨rfl, ?_, ?_⟩
  · split_ifs <;> exact (core _ rfl rfl).1
  · split_ifs <;> exact (core _ rfl rfl).2

/-- Concrete item for the C10 witness: quantity 5, one prior movement. -/
def itemC10 : InventoryItem :=
  ⟨5, true, "active", [⟨1, "purchase", 5, 0, 5, "", ""⟩], 0, none, none, true, 10⟩

/-- Witness for C10 at a negative request: reducing by −3 succeeds and
raises the quantity from 5 to 8. -/
theorem reduceStock_accepts_nonpositive_witness :
    (-3 : ℚ) ≤ itemC10.quantity ∧
    (reduceStock 2 (-3) "return" "" "" itemC10).2 = none ∧
    (reduceStock 2 (-3) "return" "" "" itemC10).1.quantity = itemC10.quantity - (-3) ∧
    ∃ dropped, (reduceStock 2 (-3) "return" "" "" itemC10).1.stockHistory =
      dropped ++ [⟨2, "return", 3, itemC10.quantity, itemC10.quantity - (-3), "", ""⟩] := by
  have h := reduceStock_accepts_nonpositive 2 (-3) "return" "" "" itemC10
    (by norm_num [itemC10])
  refine ⟨by norm_num [itemC10], h.1, h.2.1, ?_⟩
  have h3 := h.2.2
  norm_num at h3 ⊢
  exact h3

/-- Appending a movement dated at or after every existing entry keeps the
history chronological. -/
theorem chronological_append_last (l : List StockMovement) (m : StockMovement)
    (hs : chronological l) (hd : ∀ x ∈ l, x.date ≤ m.date) :
    chronological (l ++ [m]) := by
  unfold chronological at *
  rw [List.pairwise_append]
  refine ⟨hs, List.pairwise_singleton _ _, ?_⟩
  intro a ha b hb
  rw [List.mem_singleton] at hb
  subst hb
  exact hd a ha

/-- After the pre-save hook, a history built by appending a most-recent
movement has at most 10 entries and is chronological. -/
theorem preSave_history_bounded_chron (it : InventoryItem)
    (l : List StockMovement) (m : StockMovement)
    (hh : it.stockHistory = l ++ [m])
    (hs : chronological l) (hd : ∀ x ∈ l, x.date ≤ m.date) :
    (inventoryPreSave it).stockHistory.length ≤ 10 ∧
    chronological (inventoryPreSave it).stockHistory := by
  have hchron : chronological it.stockHistory :=
    hh ▸ chronological_append_last l m hs hd
  rw [inventoryPreSave_history it]
  by_cases hlen : it.stockHistory.length > 10
  · rw [if_pos hlen]
    refine ⟨?_, ?_⟩
    · rw [List.length_drop]
      omega
    · exact List.Pairwise.sublist (List.drop_sublist _ _) hchron
  · rw [if_neg hlen]
    exact ⟨by omega, hchron⟩

/-- C7: after any saved stock mutation (`addStock`, a successful
`reduceStock`, `adjustStock`) on an item whose history is chronological and
entirely dated before the mutation, the saved history is exactly the
appended history (old entries followed by the new movement, so the most
recent entry is last) when that does not exceed 10 entries, and otherwise
exactly its most recent 10 entries (the oldest dropped from the front); in
both cases it has at most 10 entries and stays chronological. -/
theorem stockHistory_bounded_chronological (now : Int) (q nq : ℚ)
    (mType ref notes : String) (item : InventoryItem)
    (hs : chronological item.stockHistory)
    (hd : ∀ x ∈ item.stockHistory, x.date ≤ now) :
    ((addStock now q mType ref notes item).stockHistory =
        (let H := item.stockHistory ++
          [(⟨now, mType, q, item.quantity, item.quantity + q, ref, notes⟩ : StockMovement)]
         if H.length > 10 then H.drop (H.length - 10) else H) ∧
      (addStock now q mType ref notes item).stockHistory.length ≤ 10 ∧
      chronological (addStock now q mType ref notes item).stockHistory) ∧
    (q ≤ item.quantity →
      ((reduceStock now q mType ref notes item).1.stockHistory =
        (let H := item.stockHistory ++
          [(⟨now, mType, -q, item.quantity, item.quantity - q, ref, notes⟩ : StockMovement)]
         if H.length > 10 then H.drop (H.length - 10) else H) ∧
        (reduceStock now q mType ref notes item).1.stockHistory.length ≤ 10 ∧
        chronological (reduceStock now q mType ref notes item).1.stockHistory)) ∧
    ((adjustStock now nq notes item).stockHistory =
        (let H := item.stockHistory ++
          [(⟨now, "adjustment", nq - item.quantity, item.quantity, nq, "", notes⟩ : StockMovement)]
         if H.length > 10 then H.drop (H.length - 10) else H) ∧
      (adjustStock now nq notes item).stockHistory.length ≤ 10 ∧
      chronological (adjustStock now nq notes item).stockHistory) := by
  refine ⟨?_, ?_, ?_⟩
  · unfold addStock
    dsimp only
    by_cases hc : mType = "purchase"
    · rw [if_pos hc]
      exact ⟨inventoryPreSave_history _,
        (preSave_history_bounded_chron _ _ _ rfl hs hd).1,
        (preSave_history_bounded_chron _ _ _ rfl hs hd).2⟩
    · rw [if_neg hc]
      exact ⟨inventoryPreSave_history _,
        (preSave_history_bounded_chron _ _ _ rfl hs hd).1,
        (preSave_history_bounded_chron _ _ _ rfl hs hd).2⟩
  · intro hq
    unfold reduceStock
    rw [if_neg (not_lt.mpr hq)]
    dsimp only
    by_cases hc : mType = "sale"
    · rw [if_pos hc]
      exact ⟨inventoryPreSave_history _,
        (preSave_history_bounded_chron _ _ _ rfl hs hd).1,
        (preSave_history_bounded_chron _ _ _ rfl hs hd).2⟩
    · rw [if_neg hc]
      exact ⟨inventoryPreSave_history _,
        (preSave_history_bounded_chron _ _ _ rfl hs hd).1,
        (preSave_history_bounded_chron _ _ _ rfl hs hd).2⟩
  · unfold adjustStock
    dsimp only
    exact ⟨inventoryPreSave_history _,
      (preSave_history_bounded_chron _ _ _ rfl hs hd).1,
      (preSave_history_bounded_chron _ _ _ rfl hs hd).2⟩

/-- Concrete item for the C7 witness: two chronological movements. -/
def itemC7 : InventoryItem :=
  ⟨4, true, "active",
    [⟨1, "purchase", 5, 0, 5, "", ""⟩, ⟨2, "sale", -1, 5, 4, "", ""⟩],
    1, some 2, some 1, true, 10⟩

/-- Witness for C7: adding stock at time 11 appends the new movement last
(no truncation at 3 entries) and keeps the history bounded and
chronological. -/
theorem stockHistory_bounded_chronological_witness :
    chronological itemC7.stockHistory ∧
    (addStock 11 4 "purchase" "" "" itemC7).stockHistory =
      itemC7.stockHistory ++
        [⟨11, "purchase", 4, itemC7.quantity, itemC7.quantity + 4, "", ""⟩] ∧
    (addStock 11 4 "purchase" "" "" itemC7).stockHistory.length ≤ 10 ∧
    chronological (addStock 11 4 "purchase" "" "" itemC7).stockHistory := by
  have h := stockHistory_bounded_chronological 11 4 0 "purchase" "" "" itemC7
    (by decide) (by decide)
  refine ⟨by decide, h.1.1.trans ?_, h.1.2.1, h.1.2.2⟩
  norm_num [itemC7]

/-- The payment pre-save hook never changes the identifying and refund
fields, only `netAmount` and the completion/failure timestamps. -/
theorem paymentPreSave_keeps (now : Int) (p : Payment) :
    (paymentPreSave now p).status = p.status ∧
    (paymentPreSave now p).amount = p.amount ∧
    (paymentPreSave now p).method = p.method ∧
    (paymentPreSave now p).transactionRef = p.transactionRef ∧
    (paymentPreSave now p).refundAmount = p.refundAmount ∧
    (paymentPreSave now p).refundReason = p.refundReason ∧
    (paymentPreSave now p).refundedAt = p.refundedAt := by
  unfold paymentPreSave
  dsimp only
  split_ifs <;> simp

/-- C8: creating a payment against an invoice rejects any amount above the
invoice's `amountDue` before anything is persisted; otherwise a payment with
the generated transaction reference is created, `pending` in general and
immediately `completed` for the `cash` method. -/
theorem createPayment_overpayment_guard (now : Int) (txRef : String)
    (i : Invoice) (cl : Option Client) (amount : ℚ) (method : String) :
    (amount > i.amountDue →
      createPayment now txRef (some i) cl amount method =
        .error "Payment amount exceeds invoice balance") ∧
    (amount ≤ i.amountDue →
      ∃ p rest, createPayment now txRef (some i) cl amount method = .ok (p, rest) ∧
        p.transactionRef = txRef ∧
        p.amount = amount ∧
        p.status = (if method = "cash" then "completed" else "pending")) := by
  constructor
  · intro h
    simp [createPayment, h]
  · intro h
    have hov : ¬ amount > i.amountDue := not_lt.mpr h
    unfold createPayment
    dsimp only
    rw [if_neg (by simpa using hov)]
    by_cases hc : method = "cash"
    · rw [if_pos hc]
      refine ⟨_, _, rfl, ?_, ?_, ?_⟩ <;>
        simp [markAsCompleted, paymentPreSave, hc]
    · rw [if_neg hc]
      refine ⟨_, _, rfl, ?_, ?_, ?_⟩ <;>
        simp [paymentPreSave, hc]

/-- Concrete invoice for the C8 witness: 100 still due. -/
def invDue100 : Invoice :=
  ⟨100, 0, 0, 0, "percentage", 0, 100, 0, 100, "sent", "unpaid", 1000000, none⟩

/-- Witness for C8: a 50 payment against 100 due is created `pending` with
the generated reference. -/
theorem createPayment_overpayment_guard_witness :
    (50 : ℚ) ≤ invDue100.amountDue ∧
    ∃ p rest, createPayment 0 "TXN-1" (some invDue100) none 50 "card" = .ok (p, rest) ∧
      p.transactionRef = "TXN-1" ∧ p.amount = 50 ∧ p.status = "pending" := by
  have h := (createPayment_overpayment_guard 0 "TXN-1" invDue100 none 50 "card").2
    (by norm_num [invDue100])
  obtain ⟨p, rest, h1, h2, h3, h4⟩ := h
  refine ⟨by norm_num [invDue100], p, rest, h1, h2, h3, ?_⟩
  simpa using h4

/-- C3 (amended): gateway verification completes the payment — applying the
invoice and client side effects — exactly when the verify result has
`status == "successful"` and an amount at least (not exactly equal to) the
expected amount; any lower amount or non-success result marks the payment
`failed` and leaves the invoice and client untouched. -/
theorem verifyPayment_completes_iff (now : Int) (d : VerifyData) (p : Payment)
    (inv : Option Invoice) (cl : Option Client) :
    ((d.status = "successful" ∧ d.amount ≥ p.amount) →
      ((verifyFlutterwavePayment now d p inv cl).1.1.status = "completed" ∧
        (verifyFlutterwavePayment now d p inv cl).1.2.1 =
          inv.map (addPayment now p.amount) ∧
        (verifyFlutterwavePayment now d p inv cl).1.2.2 =
          cl.map (fun c =>
            { c with
              totalPaid := c.totalPaid + p.amount
              lastPaymentDate := some now }) ∧
        (verifyFlutterwavePayment now d p inv cl).2 = true)) ∧
    (¬(d.status = "successful" ∧ d.amount ≥ p.amount) →
      ((verifyFlutterwavePayment now d p inv cl).1.1.status = "failed" ∧
        (verifyFlutterwavePayment now d p inv cl).1.2.1 = inv ∧
        (verifyFlutterwavePayment now d p inv cl).1.2.2 = cl ∧
        (verifyFlutterwavePayment now d p inv cl).2 = false)) := by
  constructor
  · intro h
    unfold verifyFlutterwavePayment
    rw [if_pos h]
    unfold markAsCompleted
    dsimp only
    exact ⟨(paymentPreSave_keeps now _).1.trans rfl, rfl, rfl, rfl⟩
  · intro h
    unfold verifyFlutterwavePayment
    rw [if_neg h]
    dsimp only
    exact ⟨(paymentPreSave_keeps now _).1.trans rfl, rfl, rfl, rfl⟩

/-- Concrete pending payment expecting 100. -/
def pAmount100 : Payment :=
  ⟨100, "flutterwave", "pending", "TXN-2", 0, none, none, none, none, none, none, none⟩

/-- C3 as frozen is false: a gateway result whose amount (150) differs from
the expected amount (100) still completes the payment, because the code
checks `data.amount >= payment.amount`, not equality. -/
theorem verifyPayment_amount_mismatch_counterexample :
    (VerifyData.mk "successful" 150).amount ≠ pAmount100.amount ∧
    (verifyFlutterwavePayment 0 ⟨"successful", 150⟩ pAmount100 none none).1.1.status =
      "completed" ∧
    (verifyFlutterwavePayment 0 ⟨"successful", 150⟩ pAmount100 none none).2 = true := by
  refine ⟨by norm_num [pAmount100], ?_, by
    norm_num [verifyFlutterwavePayment, markAsCompleted, paymentPreSave, pAmount100]⟩
  norm_num [verifyFlutterwavePayment, markAsCompleted, paymentPreSave, pAmount100]
  simp

/-- Witness for the amended C3: an exact-amount successful result completes
the payment. -/
theorem verifyPayment_completes_iff_witness :
    ((VerifyData.mk "successful" 100).status = "successful" ∧
      (VerifyData.mk "successful" 100).amount ≥ pAmount100.amount) ∧
    (verifyFlutterwavePayment 0 ⟨"successful", 100⟩ pAmount100 none none).1.1.status =
      "completed" ∧
    (verifyFlutterwavePayment 0 ⟨"successful", 100⟩ pAmount100 none none).2 = true := by
  have hpre : (VerifyData.mk "successful" 100).status = "successful" ∧
      (VerifyData.mk "successful" 100).amount ≥ pAmount100.amount :=
    ⟨rfl, by norm_num [pAmount100]⟩
  have h := (verifyPayment_completes_iff 0 ⟨"successful", 100⟩ pAmount100 none none).1 hpre
  exact ⟨hpre, h.1, h.2.2.2⟩

/-- The subscription pre-save hook is the identity on a subscription whose
`nextBillingDate` is set and whose period has not lapsed. -/
theorem subscriptionPreSave_noop (now : Int) (s : Subscription)
    (h1 : s.nextBillingDate ≠ none) (h2 : now ≤ s.endDate) :
    subscriptionPreSave now s = s := by
  unfold subscriptionPreSave
  dsimp only
  split_ifs with hA hB hC
  · exact absurd hA.2.2 h1
  · exact absurd hA.2.2 h1
  · exact absurd hC.2.1 (not_lt.mpr h2)
  · rfl

/-- C6: renewing from `active` or `expired` extends the period from
`max(currentEndDate, now)` by 30 days (365 for yearly plans), re-activates
the subscription, appends a renewal-history entry and clears the
cancellation metadata; renewing from any other status throws. -/
theorem subscriptionRenew_extends (now : Int) (payId txId : String)
    (s : Subscription) :
    ((s.status = "active" ∨ s.status = "expired") →
      ∃ s', subscriptionRenew now payId txId s = .ok s' ∧
        s'.endDate = max s.endDate now +
          (if s.planType = "yearly" then 365 * dayMs else 30 * dayMs) ∧
        s'.status = "active" ∧
        s'.renewalHistory = s.renewalHistory ++ [⟨now, s.amount, payId, txId⟩] ∧
        s'.cancelledAt = none ∧
        s'.cancellationReason = none) ∧
    (s.status ≠ "active" ∧ s.status ≠ "expired" →
      subscriptionRenew now payId txId s =
        .error "Can only renew active or expired subscriptions") := by
  constructor
  · intro h
    have hguard : ¬ (s.status ≠ "active" ∧ s.status ≠ "expired") := by
      rcases h with h | h <;> simp [h]
    have hbase : now ≤ (if s.endDate > now then s.endDate else now) := by
      split_ifs with hh
      · exact hh.le
      · exact le_refl now
    have hper : (0:Int) < (if s.planType = "yearly" then 365 * dayMs else 30 * dayMs) := by
      split_ifs <;> norm_num [dayMs]
    unfold subscriptionRenew
    rw [if_neg hguard]
    dsimp only
    rw [subscriptionPreSave_noop]
    · refine ⟨_, rfl, ?_, rfl, rfl, rfl, rfl⟩
      dsimp only
      rcases lt_or_ge now s.endDate with hlt | hge
      · rw [if_pos hlt, max_eq_left hlt.le]
      · rw [if_neg (not_lt.mpr hge), max_eq_right hge]
    · simp
    · dsimp only
      linarith [hbase, hper]
  · intro h
    unfold subscriptionRenew
    rw [if_pos h]

/-- Concrete subscription for scenario C: monthly, activated at t0 = 0, so
`endDate = t0 + 30d`. -/
def subC6 : Subscription :=
  ⟨"monthly", 5000, 0, 30 * dayMs, some (30 * dayMs), "active", true, none,
    none, "", none, none, 7, []⟩

/-- C6 as frozen is false at its own concrete scenario: renewing the
monthly subscription of scenario C at t0+20d extends from the original end
t0+30d by 30 days, giving endDate t0+60d — not the t0+50d the claim (and
spec scenario C) state. -/
theorem subscriptionRenew_scenarioC_counterexample :
    (subscriptionRenew (20 * dayMs) "PAY-1" "TX-1" subC6).toOption.map
        Subscription.endDate = some (60 * dayMs) ∧
    (subscriptionRenew (20 * dayMs) "PAY-1" "TX-1" subC6).toOption.map
        Subscription.endDate ≠ some (50 * dayMs) := by decide

/-- Witness for the amended C6 at scenario C: renewing at t0+20d with
endDate t0+30d yields t0+60d = max(endDate, now) + 30d. -/
theorem subscriptionRenew_extends_witness :
    (subC6.status = "active" ∨ subC6.status = "expired") ∧
    ∃ s', subscriptionRenew (20 * dayMs) "PAY-1" "TX-1" subC6 = .ok s' ∧
      s'.endDate = 60 * dayMs ∧ s'.status = "active" := by
  have h := (subscriptionRenew_extends (20 * dayMs) "PAY-1" "TX-1" subC6).1 (Or.inl rfl)
  obtain ⟨s', h1, h2, h3, _⟩ := h
  refine ⟨Or.inl rfl, s', h1, ?_, h3⟩
  rw [h2]
  simp only [subC6]
  norm_num [dayMs, max_def]
  decide

/-- The totals-recomputation step keeps `amountPaid`, both status fields and
the dates. -/
theorem invoiceComputeTotals_keeps (x : Invoice) :
    (invoiceComputeTotals x).amountPaid = x.amountPaid ∧
    (invoiceComputeTotals x).status = x.status ∧
    (invoiceComputeTotals x).paymentStatus = x.paymentStatus ∧
    (invoiceComputeTotals x).dueDate = x.dueDate ∧
    (invoiceComputeTotals x).paidDate = x.paidDate :=
  ⟨rfl, rfl, rfl, rfl, rfl⟩

/-- The overdue step is the identity on an invoice that is not past due. -/
theorem invoiceApplyOverdue_noop (now : Int) (x : Invoice)
    (h : now ≤ x.dueDate) : invoiceApplyOverdue now x = x := by
  have hov : invoiceIsOverdue now x = false := by
    unfold invoiceIsOverdue
    split_ifs
    · rfl
    · exact decide_eq_false (not_lt.mpr h)
  unfold invoiceApplyOverdue
  rw [if_neg]
  exact fun hc => by simp [hov] at hc

/-- The recomputed `total` depends only on the input money fields, so two
invoices agreeing on them get the same `total` from their pre-save hooks. -/
theorem invoicePreSave_total_congr (now nowB : Int) (x y : Invoice)
    (h1 : x.subtotal = y.subtotal) (h2 : x.taxRate = y.taxRate)
    (h3 : x.discount = y.discount) (h4 : x.discountType = y.discountType)
    (h5 : x.shippingFee = y.shippingFee) :
    (invoicePreSave now x).total = (invoicePreSave nowB y).total := by
  rw [(invoicePreSave_money now x).2.2.2.2.2.2.2.1,
    (invoicePreSave_money nowB y).2.2.2.2.2.2.2.1, h1, h2, h3, h4, h5]

/-- What the overdue step makes of `status`: `overdue` exactly when the
invoice is neither paid nor cancelled and past its due date. -/
theorem invoiceApplyOverdue_status (now : Int) (z : Invoice) :
    (invoiceApplyOverdue now z).status =
      (if z.status ≠ "paid" ∧ z.status ≠ "cancelled" ∧ now > z.dueDate
       then "overdue" else z.status) := by
  unfold invoiceApplyOverdue invoiceIsOverdue
  split_ifs <;> simp_all

/-- How the pre-save hook derives the status fields, by the position of
`amountPaid` relative to the freshly recomputed `total`, including the
overdue override for past-due invoices that end up neither paid nor
cancelled. -/
theorem invoicePreSave_derivation (now : Int) (x : Invoice) :
    (x.amountPaid = 0 →
      (invoicePreSave now x).paymentStatus = "unpaid" ∧
      (invoicePreSave now x).status =
        (if x.status ≠ "paid" ∧ x.status ≠ "cancelled" ∧ now > x.dueDate
         then "overdue" else x.status)) ∧
    (x.amountPaid ≠ 0 → x.amountPaid ≥ (invoicePreSave now x).total →
      (invoicePreSave now x).paymentStatus = "paid" ∧
      (invoicePreSave now x).status = "paid") ∧
    (x.amountPaid ≠ 0 → x.amountPaid < (invoicePreSave now x).total →
      (invoicePreSave now x).paymentStatus = "partial" ∧
      (invoicePreSave now x).status =
        (if now > x.dueDate then "overdue" else "partial")) := by
  have hY := invoiceComputeTotals_keeps x
  have htot : (invoicePreSave now x).total = (invoiceComputeTotals x).total := by
    unfold invoicePreSave
    rw [(invoiceApplyOverdue_keeps now _).2.2.2.1,
      (invoiceDeriveStatus_keeps now _).2.2.2.1]
  refine ⟨?_, ?_, ?_⟩
  · intro h
    have hz : invoiceDeriveStatus now (invoiceComputeTotals x) =
        { invoiceComputeTotals x with paymentStatus := "unpaid" } := by
      unfold invoiceDeriveStatus
      rw [if_pos (hY.1.trans h)]
    constructor
    · unfold invoicePreSave
      rw [(invoiceApplyOverdue_keeps now _).2.2.2.2.2.2.1, hz]
    · unfold invoicePreSave
      rw [invoiceApplyOverdue_status, hz]
      dsimp only
      rw [hY.2.1, hY.2.2.2.1]
  · intro hne hge
    rw [htot] at hge
    have hz : invoiceDeriveStatus now (invoiceComputeTotals x) =
        { invoiceComputeTotals x with
          paymentStatus := "paid"
          status := "paid"
          paidDate := if (invoiceComputeTotals x).paidDate = none then some now
            else (invoiceComputeTotals x).paidDate } := by
      unfold invoiceDeriveStatus
      rw [if_neg (fun hc => hne (hY.1.symm.trans hc)),
        if_pos (by rw [hY.1]; exact hge)]
    constructor
    · unfold invoicePreSave
      rw [(invoiceApplyOverdue_keeps now _).2.2.2.2.2.2.1, hz]
    · unfold invoicePreSave
      rw [invoiceApplyOverdue_status, hz]
      simp
  · intro hne hlt
    rw [htot] at hlt
    have hz : invoiceDeriveStatus now (invoiceComputeTotals x) =
        { invoiceComputeTotals x with
          paymentStatus := "partial"
          status := "partial" } := by
      unfold invoiceDeriveStatus
      rw [if_neg (fun hc => hne (hY.1.symm.trans hc)),
        if_neg (by rw [hY.1]; exact not_le.mpr hlt)]
    constructor
    · unfold invoicePreSave
      rw [(invoiceApplyOverdue_keeps now _).2.2.2.2.2.2.1, hz]
    · unfold invoicePreSave
      rw [invoiceApplyOverdue_status, hz]
      dsimp only
      rw [hY.2.2.2.1]
      simp

/-- What `processRefundInvoice` does to a saved invoice (one whose stored
`total` is already its recomputed total): `amountPaid` drops by the refund,
`amountDue` is re-derived, and the status pair becomes `unpaid`/`sent` at
zero and `partial` below `total` — with `status` forced to `overdue` in
either case when the invoice is past due — and stays `paid` otherwise. -/
theorem processRefundInvoice_spec (now : Int) (a : ℚ) (i : Invoice)
    (hT : i.total = (invoicePreSave now i).total) :
    (processRefundInvoice now a i).amountPaid = i.amountPaid - a ∧
    (processRefundInvoice now a i).amountDue =
      max 0 (i.total - (i.amountPaid - a)) ∧
    (i.amountPaid - a = 0 →
      (processRefundInvoice now a i).paymentStatus = "unpaid" ∧
      (processRefundInvoice now a i).status =
        (if now > i.dueDate then "overdue" else "sent")) ∧
    (i.amountPaid - a ≠ 0 → i.amountPaid - a < i.total →
      (processRefundInvoice now a i).paymentStatus = "partial" ∧
      (processRefundInvoice now a i).status =
        (if now > i.dueDate then "overdue" else "partial")) ∧
    (i.amountPaid - a ≠ 0 → i.amountPaid - a ≥ i.total →
      (processRefundInvoice now a i).paymentStatus = "paid" ∧
      (processRefundInvoice now a i).status = "paid") := by
  unfold processRefundInvoice
  dsimp only
  set I2 : Invoice :=
    if i.amountPaid - a = 0 then
      { i with
        amountPaid := i.amountPaid - a
        amountDue := i.amountDue + a
        paymentStatus := "unpaid"
        status := "sent" }
    else if i.amountPaid - a < i.total then
      { i with
        amountPaid := i.amountPaid - a
        amountDue := i.amountDue + a
        paymentStatus := "partial"
        status := "partial" }
    else
      { i with
        amountPaid := i.amountPaid - a
        amountDue := i.amountDue + a } with hI2
  have hap : I2.amountPaid = i.amountPaid - a := by
    rw [hI2]; split_ifs <;> rfl
  have hdd : I2.dueDate = i.dueDate := by
    rw [hI2]; split_ifs <;> rfl
  have htot : (invoicePreSave now I2).total = i.total := by
    refine (invoicePreSave_total_congr now now I2 i ?_ ?_ ?_ ?_ ?_).trans hT.symm <;>
      (rw [hI2]; split_ifs <;> rfl)
  have hder := invoicePreSave_derivation now I2
  have hmoney := invoicePreSave_money now I2
  refine ⟨hmoney.2.2.2.2.2.1.trans hap, ?_, ?_, ?_, ?_⟩
  · rw [hmoney.2.2.2.2.2.2.2.2, htot, hap]
  · intro h0
    have hst : I2.status = "sent" := by rw [hI2, if_pos h0]
    have hres := hder.1 (hap.trans h0)
    refine ⟨hres.1, hres.2.trans ?_⟩
    rw [hst, hdd]
    simp
  · intro hne hlt
    have hres := hder.2.2 (fun hc => hne (hap.symm.trans hc))
      (by rw [hap, htot]; exact hlt)
    exact ⟨hres.1, hres.2.trans (by rw [hdd])⟩
  · intro hne hge
    exact hder.2.1 (fun hc => hne (hap.symm.trans hc))
      (by rw [hap, htot]; exact hge)

/-- C5 (amended): a refund is rejected unless the payment is `completed`
and the amount does not exceed the original amount; on success the payment
becomes `refunded` with refund metadata, the linked (saved) invoice's
`amountPaid`/`amountDue` are reversed by the refund, and its status pair is
re-derived: `paymentStatus` `unpaid` with `status` `sent` when `amountPaid`
returns to 0, both `partial` when it stays strictly between 0 and `total` —
in both cases `status` is forced to `overdue` instead when the invoice is
past due — and still `paid` when `amountPaid` remains at least `total` (as
after a zero-amount refund of a fully paid invoice). -/
theorem processRefund_guard_and_reversal (now : Int) (a : ℚ) (reason : String)
    (p : Payment) (i : Invoice)
    (hT : i.total = (invoicePreSave now i).total) :
    (p.status ≠ "completed" →
      processRefund now a reason p (some i) =
        .error "Can only refund completed payments") ∧
    (p.status = "completed" → a > p.amount →
      processRefund now a reason p (some i) =
        .error "Refund amount cannot exceed payment amount") ∧
    (p.status = "completed" → a ≤ p.amount →
      ∃ pR iR, processRefund now a reason p (some i) = .ok (pR, some iR) ∧
        pR.status = "refunded" ∧ pR.refundAmount = some a ∧
        pR.refundReason = some reason ∧ pR.refundedAt = some now ∧
        iR.amountPaid = i.amountPaid - a ∧
        iR.amountDue = max 0 (i.total - (i.amountPaid - a)) ∧
        (i.amountPaid - a = 0 →
          iR.paymentStatus = "unpaid" ∧
          iR.status = (if now > i.dueDate then "overdue" else "sent")) ∧
        (i.amountPaid - a ≠ 0 → i.amountPaid - a < i.total →
          iR.paymentStatus = "partial" ∧
          iR.status = (if now > i.dueDate then "overdue" else "partial")) ∧
        (i.amountPaid - a ≠ 0 → i.amountPaid - a ≥ i.total →
          iR.paymentStatus = "paid" ∧ iR.status = "paid")) := by
  refine ⟨?_, ?_, ?_⟩
  · intro h
    unfold processRefund
    rw [if_pos h]
  · intro h1 h2
    unfold processRefund
    rw [if_neg (fun hc => hc h1), if_pos h2]
  · intro h1 h2
    unfold processRefund
    rw [if_neg (fun hc => hc h1), if_neg (not_lt.mpr h2)]
    dsimp only [Option.map]
    have hs := processRefundInvoice_spec now a i hT
    refine ⟨_, _, rfl, ?_, ?_, ?_, ?_, hs.1, hs.2.1, hs.2.2.1, hs.2.2.2.1, hs.2.2.2.2⟩
    · exact (paymentPreSave_keeps now _).1
    · exact (paymentPreSave_keeps now _).2.2.2.2.1
    · exact (paymentPreSave_keeps now _).2.2.2.2.2.1
    · exact (paymentPreSave_keeps now _).2.2.2.2.2.2

/-- Concrete completed payment of 100 for the C5 counterexample. -/
def pC5 : Payment :=
  ⟨100, "card", "completed", "TXN-3", 0, none, some 50, none, none, none, none, none⟩

/-- Concrete fully-paid invoice of total 100 linked to `pC5`. -/
def invC5 : Invoice :=
  ⟨100, 0, 0, 0, "percentage", 0, 100, 100, 0, "paid", "paid", 1000000, some 50⟩

/-- C5 as frozen is false: a zero-amount refund of a completed payment
(allowed, since 0 does not exceed the original amount) succeeds, yet the
fully paid linked invoice keeps `amountPaid = 100 ≠ 0` and stays `paid` —
not the `partial` the claim requires for every successful refund that does
not return `amountPaid` to 0. -/
theorem processRefund_zero_amount_counterexample :
    pC5.status = "completed" ∧ (0 : ℚ) ≤ pC5.amount ∧
    ((processRefund 1000 0 "client request" pC5 (some invC5)).toOption.map
      (fun r => r.2.map
        (fun j => (j.paymentStatus, j.status, j.amountPaid)))) =
      some (some ("paid", "paid", (100 : ℚ))) ∧
    ("paid" : String) ≠ "partial" := by
  refine ⟨rfl, by norm_num [pC5], ?_, by decide⟩
  norm_num [processRefund, processRefundInvoice, invoicePreSave,
    invoiceComputeTotals, invoiceDeriveStatus, invoiceApplyOverdue,
    invoiceIsOverdue, paymentPreSave, pC5, invC5, max_def, Except.toOption]

/-- Concrete completed payment and invoice for scenario D: payment 10750 on
the fully paid scenario-A invoice. -/
def pScenarioD : Payment :=
  ⟨10750, "cash", "completed", "TXN-4", 0, none, some 10, none, none, none, none, none⟩

/-- Scenario A's invoice after full payment: total 10750, fully paid. -/
def invScenarioD : Invoice :=
  ⟨10000, 15/2, 750, 0, "percentage", 0, 10750, 10750, 0, "paid", "paid",
    10000000, some 10⟩

/-- Witness for the amended C5 at scenario D: refunding 4000 of the 10750
payment leaves `amountPaid = 6750`, `amountDue = 4000`, status `partial`. -/
theorem processRefund_guard_and_reversal_witness :
    pScenarioD.status = "completed" ∧ (4000 : ℚ) ≤ pScenarioD.amount ∧
    ∃ pR iR, processRefund 1000 4000 "client request" pScenarioD
        (some invScenarioD) = .ok (pR, some iR) ∧
      pR.status = "refunded" ∧ iR.amountPaid = 6750 ∧ iR.amountDue = 4000 ∧
      iR.paymentStatus = "partial" ∧ iR.status = "partial" := by
  have hT : invScenarioD.total = (invoicePreSave 1000 invScenarioD).total := by
    rw [(invoicePreSave_money 1000 invScenarioD).2.2.2.2.2.2.2.1]
    norm_num [invScenarioD, max_def]
  have h := (processRefund_guard_and_reversal 1000 4000 "client request"
      pScenarioD invScenarioD hT).2.2 rfl (by norm_num [pScenarioD])
  obtain ⟨pR, iR, he, hst, _, _, _, hap, hdu, _, hmid, _⟩ := h
  have hpart := hmid (by norm_num [invScenarioD]) (by norm_num [invScenarioD])
  refine ⟨rfl, by norm_num [pScenarioD], pR, iR, he, hst, ?_, ?_, hpart.1,
    hpart.2.trans (by norm_num [invScenarioD])⟩
  · rw [hap]; norm_num [invScenarioD]
  · rw [hdu]; norm_num [invScenarioD, max_def]

end BackOffice
